import Mathlib

/-!
Shallow embedding of `src/tarantool_locksmith/locksmith.py`, the Python client
for the Tarantool locksmith lock service, together with theorems settling the
specification claims about it.

Modelling conventions:
* Python values that flow through the client (lock names, validities, lease
  ids, reply-tuple elements, configuration arguments) are modelled by the
  inductive `PyVal`; the Python `None` object is `PyVal.vnone`.
* The remote authority (the Tarantool server reached through
  `self.tnt.call(fname, args)`) is modelled by an oracle function
  `authority : String → List PyVal → List (List PyVal)` mapping a remote
  function name and its positional argument tuple to the reply, a list of
  result tuples.
* Methods that mutate the `Locksmith` object are modelled by explicit state
  passing on `Locksmith.State`; methods that perform remote calls also return
  the list of `RemoteCall`s they issued, in order.
* Exceptions are modelled with `Except PyExc` (for expressions that raise) or
  with an `Option PyExc` component (for statements whose exception aborts the
  rest of the method body).
-/

/-- A Python value as seen by this client.  `vnone` is the `None` object;
strings, ints, bools and floats cover every value the client itself inspects
(truthiness, `isinstance(·, int)`, `is not None`); floats are carried as
rationals since the client never computes with them. -/
inductive PyVal where
  | vnone
  | vstr (s : String)
  | vint (n : Int)
  | vbool (b : Bool)
  | vfloat (q : Rat)
  deriving Repr, DecidableEq

/-- Python truthiness of a `PyVal` (`bool(v)`), as used by `if not host or not port`. -/
def PyVal.truthy : PyVal → Bool
  | .vnone => false
  | .vstr s => decide (s ≠ "")
  | .vint n => decide (n ≠ 0)
  | .vbool b => b
  | .vfloat q => decide (q ≠ 0)

/-- Python `isinstance(v, int)`: true for ints and for bools (`bool` is a
subclass of `int` in Python), false otherwise. -/
def PyVal.isinstance_int : PyVal → Bool
  | .vint _ => true
  | .vbool _ => true
  | _ => false

/-- The Python exceptions this client can raise or propagate. -/
inductive PyExc where
  | badConfig (msg : String)
  | typeError (msg : String)
  | attributeError (msg : String)
  | indexError
  deriving Repr, DecidableEq

/-- A connection class, as stored in `Locksmith._conclass`: either the default
`tarantool.Connection` or a substituted class whose `dir(...)` listing is
`attrs` (with `id` distinguishing different substituted classes). -/
inductive ConnCls where
  | tarantoolConnection
  | custom (attrs : List String) (id : Nat)
  deriving Repr, DecidableEq

/-- Membership test `a in dir(cls)`.  The real `tarantool.Connection` class has
both a `call` method and `__init__`, the only two names the client ever
probes. -/
def ConnCls.dirHas : ConnCls → String → Bool
  | .tarantoolConnection, a => decide (a ∈ ["call", "__init__"])
  | .custom attrs _, a => decide (a ∈ attrs)

/-- A mutual-exclusion object, as stored in `Locksmith._lockinst`: either a
`threading.Lock` instance or a substituted object whose `dir(...)` listing is
`attrs`. -/
inductive LockInst where
  | threadingLock
  | custom (attrs : List String) (id : Nat)
  deriving Repr, DecidableEq

/-- Membership test `a in dir(lock)`.  A `threading.Lock` instance has the
scoped `__enter__`/`__exit__` methods, the only two names the client probes. -/
def LockInst.dirHas : LockInst → String → Bool
  | .threadingLock, a => decide (a ∈ ["__enter__", "__exit__"])
  | .custom attrs _, a => decide (a ∈ attrs)

/-- A constructed Tarantool connection object: the class it was instantiated
from and the constructor arguments
`(host, port, user=user, password=password, socket_timeout=timeout)`. -/
structure Conn where
  cls : ConnCls
  host : PyVal
  port : PyVal
  user : PyVal
  password : PyVal
  socket_timeout : PyVal
  deriving Repr, DecidableEq

/-- One remote invocation `tnt.call(fname, args)` issued by the client. -/
structure RemoteCall where
  fname : String
  args : List PyVal
  deriving Repr, DecidableEq

/-- The client-side lock handle (class `Lock`): the name and uid stored at
construction.  The `locksmith` back-reference of the Python object is the
coordinator state that is passed explicitly to `Lock.update`/`Lock.release`. -/
structure Lock where
  name : PyVal
  uid : PyVal
  deriving Repr, DecidableEq

/-- The attributes the module-level class `Lock` actually defines (besides
what `object` provides).  It defines no exception classes: those live on
`Locksmith`. -/
def Lock.classAttrs : List String := ["__init__", "__repr__", "update", "release"]

/-- Evaluation of the expression `Lock.BadConfigException(msg)` as written in
`Locksmith.__init__`.  Python looks the name `BadConfigException` up on the
class `Lock`; `Lock` does not define it (it is defined on `Locksmith`), so the
lookup itself raises `AttributeError` instead of producing the intended
`BadConfigException`. -/
def Lock.raiseBadConfig (msg : String) : PyExc :=
  if "BadConfigException" ∈ Lock.classAttrs then PyExc.badConfig msg
  else PyExc.attributeError "type object Lock has no attribute BadConfigException"

/-- The mutable state of a `Locksmith` object. -/
structure Locksmith.State where
  host : PyVal
  port : PyVal
  user : PyVal
  password : PyVal
  timeout : PyVal
  tubes : List (String × PyVal)
  lockinst : Option LockInst
  conclass : Option ConnCls
  tnt : Option Conn
  deriving Repr, DecidableEq

/-- Constructor `Locksmith.__init__(host, port, user, password, timeout)`:
validates host/port, then initialises the fields (`self.tubes = {}`,
`self._lockinst = threading.Lock()`, `self._conclass = tarantool.Connection`,
`self._tnt = None`).  The two `raise Lock.BadConfigException(...)` statements
go through `Lock.raiseBadConfig`. -/
def Locksmith.init (host port user password timeout : PyVal) :
    Except PyExc Locksmith.State :=
  if !host.truthy || !port.truthy then
    .error (Lock.raiseBadConfig "Host and port params must be not empty")
  else if !port.isinstance_int then
    .error (Lock.raiseBadConfig "Port must be int")
  else
    .ok { host := host, port := port, user := user, password := password,
          timeout := timeout, tubes := [],
          lockinst := some LockInst.threadingLock,
          conclass := some ConnCls.tarantoolConnection,
          tnt := none }

/-- Property getter `Locksmith.tarantool_connection`: if `self._conclass` is
`None` it is reset to `tarantool.Connection`; the (possibly updated) class is
returned together with the updated object state. -/
def Locksmith.tarantool_connection (s : Locksmith.State) :
    ConnCls × Locksmith.State :=
  match s.conclass with
  | none => (ConnCls.tarantoolConnection,
             { s with conclass := some ConnCls.tarantoolConnection })
  | some c => (c, s)

/-- Property setter `Locksmith.tarantool_connection = con_cls`: `None` resets
to `tarantool.Connection`; a class with `call` and `__init__` in its `dir` is
accepted; anything else raises `TypeError` (leaving the state untouched, since
the exception aborts the setter before any assignment).  On the two non-raising
paths the trailing `self._tnt = None` runs. -/
def Locksmith.set_tarantool_connection (s : Locksmith.State)
    (con_cls : Option ConnCls) : Locksmith.State × Option PyExc :=
  match con_cls with
  | none =>
      ({ s with conclass := some ConnCls.tarantoolConnection, tnt := none }, none)
  | some c =>
      if c.dirHas "call" && c.dirHas "__init__" then
        ({ s with conclass := some c, tnt := none }, none)
      else
        (s, some (PyExc.typeError
          "Connection class must have connect and call methods or be None"))

/-- Property getter `Locksmith.tarantool_lock`: if `self._lockinst` is `None`
it is reset to a `threading.Lock()`; the (possibly updated) lock is returned
together with the updated object state. -/
def Locksmith.tarantool_lock (s : Locksmith.State) :
    LockInst × Locksmith.State :=
  match s.lockinst with
  | none => (LockInst.threadingLock,
             { s with lockinst := some LockInst.threadingLock })
  | some l => (l, s)

/-- Property setter `Locksmith.tarantool_lock = lock`: `None` resets to a
fresh `threading.Lock()`; an object with `__enter__` and `__exit__` in its
`dir` is accepted; anything else raises `TypeError` (leaving the state
untouched).  Unlike the connection setter, `self._tnt` is never touched. -/
def Locksmith.set_tarantool_lock (s : Locksmith.State)
    (lock : Option LockInst) : Locksmith.State × Option PyExc :=
  match lock with
  | none => ({ s with lockinst := some LockInst.threadingLock }, none)
  | some l =>
      if l.dirHas "__enter__" && l.dirHas "__exit__" then
        ({ s with lockinst := some l }, none)
      else
        (s, some (PyExc.typeError
          "Lock class must have `__enter__` and `__exit__` methods or be None"))

/-- Property getter `Locksmith.tnt` (double-checked locking): if `self._tnt`
is `None`, enter `with self.tarantool_lock:` (the getter may initialise the
lock), re-check `self._tnt`, and if still `None` construct the connection via
the `tarantool_connection` getter with the stored host, port, user, password
and `socket_timeout=self.timeout`.  Returns the connection, the updated state
and the number of connection constructions performed (0 or 1). -/
def Locksmith.tnt_get (s : Locksmith.State) : Conn × Locksmith.State × Nat :=
  match s.tnt with
  | some c => (c, s, 0)
  | none =>
      let s1 := (Locksmith.tarantool_lock s).2
      match s1.tnt with
      | some c => (c, s1, 0)
      | none =>
          let gc := Locksmith.tarantool_connection s1
          let c : Conn := ⟨gc.1, gc.2.host, gc.2.port, gc.2.user,
                           gc.2.password, gc.2.timeout⟩
          (c, { gc.2 with tnt := some c }, 1)

/-- The positional argument tuple built by `Locksmith.acquire`:
`args = (lock_name, validity)`, extended by `timeout` when
`timeout is not None`. -/
def Locksmith.acquireArgs (lock_name validity timeout : PyVal) : List PyVal :=
  let args := [lock_name, validity]
  if timeout ≠ PyVal.vnone then args ++ [timeout] else args

/-- Method `Locksmith.acquire(lock_name, validity, timeout=None)`: builds the
argument tuple, calls `locksmith:acquire` through `self.tnt`, takes reply
tuple 0 and, when its element 0 `is not None`, returns
`Lock(self, the_tuple[1], the_tuple[2])`; otherwise falls through returning
`None`.  Out-of-range tuple indexing raises `IndexError` as in Python.
Returns (result-or-exception, updated state, remote calls issued). -/
def Locksmith.acquire (authority : String → List PyVal → List (List PyVal))
    (s : Locksmith.State) (lock_name validity timeout : PyVal) :
    Except PyExc (Option Lock) × Locksmith.State × List RemoteCall :=
  let args := Locksmith.acquireArgs lock_name validity timeout
  let s1 := (Locksmith.tnt_get s).2.1
  let log : List RemoteCall := [⟨"locksmith:acquire", args⟩]
  let reply := authority "locksmith:acquire" args
  let res : Except PyExc (Option Lock) :=
    match reply.get? 0 with
    | none => .error PyExc.indexError
    | some t =>
        match t.get? 0 with
        | none => .error PyExc.indexError
        | some e0 =>
            if e0 ≠ PyVal.vnone then
              match t.get? 1 with
              | none => .error PyExc.indexError
              | some e1 =>
                  match t.get? 2 with
                  | none => .error PyExc.indexError
                  | some e2 => .ok (some ⟨e1, e2⟩)
            else .ok none
  (res, s1, log)

/-- Method `Locksmith.update(lock_uid, validity)`: calls `locksmith:update`
with `(lock_uid, validity)` and returns `bool(the_tuple[0] is not None)` for
reply tuple 0. -/
def Locksmith.update (authority : String → List PyVal → List (List PyVal))
    (s : Locksmith.State) (lock_uid validity : PyVal) :
    Except PyExc Bool × Locksmith.State × List RemoteCall :=
  let s1 := (Locksmith.tnt_get s).2.1
  let log : List RemoteCall := [⟨"locksmith:update", [lock_uid, validity]⟩]
  let reply := authority "locksmith:update" [lock_uid, validity]
  let res : Except PyExc Bool :=
    match reply.get? 0 with
    | none => .error PyExc.indexError
    | some t =>
        match t.get? 0 with
        | none => .error PyExc.indexError
        | some e0 => .ok (decide (e0 ≠ PyVal.vnone))
  (res, s1, log)

/-- Method `Locksmith.release(lock_uid)`: calls `locksmith:release` with
`(lock_uid,)` and returns `bool(the_tuple[0] is not None)` for reply
tuple 0. -/
def Locksmith.release (authority : String → List PyVal → List (List PyVal))
    (s : Locksmith.State) (lock_uid : PyVal) :
    Except PyExc Bool × Locksmith.State × List RemoteCall :=
  let s1 := (Locksmith.tnt_get s).2.1
  let log : List RemoteCall := [⟨"locksmith:release", [lock_uid]⟩]
  let reply := authority "locksmith:release" [lock_uid]
  let res : Except PyExc Bool :=
    match reply.get? 0 with
    | none => .error PyExc.indexError
    | some t =>
        match t.get? 0 with
        | none => .error PyExc.indexError
        | some e0 => .ok (decide (e0 ≠ PyVal.vnone))
  (res, s1, log)

/-- Method `Locksmith.statistics()`: calls `locksmith:statistics` with no
arguments and returns `reply[0][0]`. -/
def Locksmith.statistics (authority : String → List PyVal → List (List PyVal))
    (s : Locksmith.State) :
    Except PyExc PyVal × Locksmith.State × List RemoteCall :=
  let s1 := (Locksmith.tnt_get s).2.1
  let log : List RemoteCall := [⟨"locksmith:statistics", []⟩]
  let reply := authority "locksmith:statistics" []
  let res : Except PyExc PyVal :=
    match reply.get? 0 with
    | none => .error PyExc.indexError
    | some t =>
        match t.get? 0 with
        | none => .error PyExc.indexError
        | some e0 => .ok e0
  (res, s1, log)

/-- Method `Lock.update(validity)`: delegates to
`self.locksmith.update(self.uid, validity)`. -/
def Lock.update (authority : String → List PyVal → List (List PyVal))
    (s : Locksmith.State) (lk : Lock) (validity : PyVal) :
    Except PyExc Bool × Locksmith.State × List RemoteCall :=
  Locksmith.update authority s lk.uid validity

/-- Method `Lock.release()`: delegates to
`self.locksmith.release(self.uid)`. -/
def Lock.release (authority : String → List PyVal → List (List PyVal))
    (s : Locksmith.State) (lk : Lock) :
    Except PyExc Bool × Locksmith.State × List RemoteCall :=
  Locksmith.release authority s lk.uid

/-- A sequence of `n` consecutive accesses to the `tnt` property: the list of
connections returned, the final state, and the total number of connection
constructions performed. -/
def Locksmith.tntTrace : Nat → Locksmith.State → List Conn × Locksmith.State × Nat
  | 0, s => ([], s, 0)
  | Nat.succ n, s =>
      let g := Locksmith.tnt_get s
      let r := Locksmith.tntTrace n g.2.1
      (g.1 :: r.1, r.2.1, g.2.2 + r.2.2)

/-- A sample coordinator state, equal to the result of a successful
`Locksmith.init` with the documented default arguments. -/
def sampleState : Locksmith.State :=
  { host := PyVal.vstr "localhost", port := PyVal.vint 33013,
    user := PyVal.vnone, password := PyVal.vnone, timeout := PyVal.vfloat 1,
    tubes := [], lockinst := some LockInst.threadingLock,
    conclass := some ConnCls.tarantoolConnection, tnt := none }

/-- A sample constructed connection, as `sampleState`'s first `tnt` access
would build it. -/
def sampleConn : Conn :=
  ⟨ConnCls.tarantoolConnection, PyVal.vstr "localhost", PyVal.vint 33013,
   PyVal.vnone, PyVal.vnone, PyVal.vfloat 1⟩

/-- C1: for every reply whose first tuple exists, if element 0 of that tuple
is non-nil (and the tuple carries elements 1 and 2) then `acquire` returns a
`Lock` whose name is element 1 and whose uid is element 2; if element 0 is nil
then `acquire` returns `None` without raising. -/
theorem acquire_reply_contract
    (authority : String → List PyVal → List (List PyVal))
    (s : Locksmith.State) (name validity timeout : PyVal) (t : List PyVal)
    (h1 : (authority "locksmith:acquire"
            (Locksmith.acquireArgs name validity timeout)).get? 0 = some t) :
    (∀ e0 e1 e2 rest, t = e0 :: e1 :: e2 :: rest → e0 ≠ PyVal.vnone →
       (Locksmith.acquire authority s name validity timeout).1
         = .ok (some ⟨e1, e2⟩)) ∧
    (t.get? 0 = some PyVal.vnone →
       (Locksmith.acquire authority s name validity timeout).1 = .ok none) := by
  simp only [List.get?_eq_getElem?] at h1
  constructor
  · rintro e0 e1 e2 rest rfl hne
    simp [Locksmith.acquire, h1, hne]
  · intro h0
    simp only [List.get?_eq_getElem?] at h0
    simp [Locksmith.acquire, h1, h0]

/-- Witness for C1 at a concrete authority, state and reply. -/
theorem acquire_reply_contract_witness :
    ((fun (_ : String) (_ : List PyVal) =>
        [[PyVal.vstr "k", PyVal.vstr "foo", PyVal.vstr "id1"]])
      "locksmith:acquire"
      (Locksmith.acquireArgs (PyVal.vstr "foo") (PyVal.vint 60)
        PyVal.vnone)).get? 0
      = some [PyVal.vstr "k", PyVal.vstr "foo", PyVal.vstr "id1"] ∧
    (Locksmith.acquire
        (fun _ _ => [[PyVal.vstr "k", PyVal.vstr "foo", PyVal.vstr "id1"]])
        sampleState (PyVal.vstr "foo") (PyVal.vint 60) PyVal.vnone).1
      = .ok (some ⟨PyVal.vstr "foo", PyVal.vstr "id1"⟩) :=
  ⟨rfl,
   (acquire_reply_contract
      (fun _ _ => [[PyVal.vstr "k", PyVal.vstr "foo", PyVal.vstr "id1"]])
      sampleState (PyVal.vstr "foo") (PyVal.vint 60) PyVal.vnone
      [PyVal.vstr "k", PyVal.vstr "foo", PyVal.vstr "id1"] rfl).1
     (PyVal.vstr "k") (PyVal.vstr "foo") (PyVal.vstr "id1") [] rfl
     (by decide)⟩

/-- C2: `update` and `release` return exactly the boolean "element 0 of the
first reply tuple is non-nil", and in particular return `false` without
raising when the discriminator is nil (unknown or expired lease). -/
theorem update_release_discriminator
    (authority : String → List PyVal → List (List PyVal))
    (s : Locksmith.State) (uid validity e0 f0 : PyVal)
    (rest rest2 : List PyVal)
    (hu : (authority "locksmith:update" [uid, validity]).get? 0
            = some (e0 :: rest))
    (hr : (authority "locksmith:release" [uid]).get? 0 = some (f0 :: rest2)) :
    (Locksmith.update authority s uid validity).1
      = .ok (decide (e0 ≠ PyVal.vnone)) ∧
    (Locksmith.release authority s uid).1
      = .ok (decide (f0 ≠ PyVal.vnone)) := by
  simp only [List.get?_eq_getElem?] at hu hr
  constructor
  · simp [Locksmith.update, hu]
  · simp [Locksmith.release, hr]

/-- Witness for C2 at a concrete authority replying with a nil discriminator:
both operations return `false` rather than raising. -/
theorem update_release_discriminator_witness :
    ((fun (_ : String) (_ : List PyVal) => [[PyVal.vnone]])
        "locksmith:update" [PyVal.vstr "id1", PyVal.vint 30]).get? 0
      = some [PyVal.vnone] ∧
    ((fun (_ : String) (_ : List PyVal) => [[PyVal.vnone]])
        "locksmith:release" [PyVal.vstr "id1"]).get? 0 = some [PyVal.vnone] ∧
    ((Locksmith.update (fun _ _ => [[PyVal.vnone]]) sampleState
        (PyVal.vstr "id1") (PyVal.vint 30)).1
        = .ok (decide (PyVal.vnone ≠ PyVal.vnone)) ∧
     (Locksmith.release (fun _ _ => [[PyVal.vnone]]) sampleState
        (PyVal.vstr "id1")).1 = .ok (decide (PyVal.vnone ≠ PyVal.vnone))) :=
  ⟨rfl, rfl,
   update_release_discriminator (fun _ _ => [[PyVal.vnone]]) sampleState
     (PyVal.vstr "id1") (PyVal.vint 30) PyVal.vnone PyVal.vnone [] [] rfl rfl⟩

/-- C3: `acquire` issues exactly one remote call, named `locksmith:acquire`,
whose argument tuple is `(name, validity)` when `timeout` is `None` and
`(name, validity, timeout)` (timeout forwarded unmodified, including `0`)
otherwise. -/
theorem acquire_call_shape
    (authority : String → List PyVal → List (List PyVal))
    (s : Locksmith.State) (name validity timeout : PyVal) :
    (Locksmith.acquire authority s name validity timeout).2.2 =
      [⟨"locksmith:acquire",
        if timeout = PyVal.vnone then [name, validity]
        else [name, validity, timeout]⟩] := by
  by_cases h : timeout = PyVal.vnone <;>
    simp [Locksmith.acquire, Locksmith.acquireArgs, h]

/-- C8: `statistics` issues exactly one remote call, named
`locksmith:statistics` with an empty argument tuple, and returns element 0 of
reply tuple 0 verbatim. -/
theorem statistics_no_args_first_element
    (authority : String → List PyVal → List (List PyVal))
    (s : Locksmith.State) (v : PyVal) (t : List PyVal)
    (r : List (List PyVal))
    (h : authority "locksmith:statistics" [] = (v :: t) :: r) :
    (Locksmith.statistics authority s).1 = .ok v ∧
    (Locksmith.statistics authority s).2.2
      = [⟨"locksmith:statistics", []⟩] := by
  constructor <;> simp [Locksmith.statistics, h]

/-- Witness for C8 at a concrete authority and reply. -/
theorem statistics_no_args_first_element_witness :
    ((fun (_ : String) (_ : List PyVal) => [[PyVal.vint 7]])
       "locksmith:statistics" []) = [[PyVal.vint 7]] ∧
    ((Locksmith.statistics (fun _ _ => [[PyVal.vint 7]]) sampleState).1
       = .ok (PyVal.vint 7) ∧
     (Locksmith.statistics (fun _ _ => [[PyVal.vint 7]]) sampleState).2.2
       = [⟨"locksmith:statistics", []⟩]) :=
  ⟨rfl,
   statistics_no_args_first_element (fun _ _ => [[PyVal.vint 7]]) sampleState
     (PyVal.vint 7) [] [] rfl⟩

/-- C9: the lock handle is a thin delegator: `Lock.update` is exactly
`Locksmith.update` at the stored uid and `Lock.release` is exactly
`Locksmith.release` at the stored uid (the handle itself, holding `name` and
`uid` fixed at construction, is immutable). -/
theorem lock_handle_delegates
    (authority : String → List PyVal → List (List PyVal))
    (s : Locksmith.State) (lk : Lock) (validity : PyVal) :
    Lock.update authority s lk validity
      = Locksmith.update authority s lk.uid validity ∧
    Lock.release authority s lk = Locksmith.release authority s lk.uid :=
  ⟨rfl, rfl⟩

/-- Once a connection is cached in the state, every further `tnt` access
returns it, leaves the state unchanged and performs no construction. -/
theorem Locksmith.tntTrace_cached (c : Conn) :
    ∀ (n : Nat) (s : Locksmith.State), s.tnt = some c →
      Locksmith.tntTrace n s = (List.replicate n c, s, 0)
  | 0, s, _ => by simp [Locksmith.tntTrace]
  | Nat.succ n, s, h => by
      simp [Locksmith.tntTrace, Locksmith.tnt_get, h,
            Locksmith.tntTrace_cached c n s h, List.replicate_succ]

/-- C4: starting from a freshly constructed coordinator, any sequence of
`n ≥ 1` accesses to the `tnt` property performs exactly one connection
construction, on the first access, using the default class and the host, port,
user, password and timeout fixed at construction, and every access returns
that same connection. -/
theorem tnt_constructed_at_most_once
    (h p u pw tm : PyVal) (s0 : Locksmith.State)
    (hinit : Locksmith.init h p u pw tm = .ok s0)
    (n : Nat) (hn : 1 ≤ n) :
    Locksmith.tntTrace n s0 =
      (List.replicate n ⟨ConnCls.tarantoolConnection, h, p, u, pw, tm⟩,
       { s0 with tnt := some ⟨ConnCls.tarantoolConnection, h, p, u, pw, tm⟩ },
       1) := by
  unfold Locksmith.init at hinit
  split at hinit
  · exact absurd hinit (by simp)
  split at hinit
  · exact absurd hinit (by simp)
  injection hinit with hs
  subst hs
  obtain ⟨m, rfl⟩ : ∃ m, n = m + 1 := ⟨n - 1, by omega⟩
  have hcached := Locksmith.tntTrace_cached
    ⟨ConnCls.tarantoolConnection, h, p, u, pw, tm⟩ m
    { host := h, port := p, user := u, password := pw, timeout := tm,
      tubes := [], lockinst := some LockInst.threadingLock,
      conclass := some ConnCls.tarantoolConnection,
      tnt := some ⟨ConnCls.tarantoolConnection, h, p, u, pw, tm⟩ } rfl
  simp [Locksmith.tntTrace, Locksmith.tnt_get, Locksmith.tarantool_lock,
        Locksmith.tarantool_connection, hcached, List.replicate_succ]

/-- Witness for C4: a concretely initialised coordinator, two `tnt` accesses,
one construction. -/
theorem tnt_constructed_at_most_once_witness :
    Locksmith.init (PyVal.vstr "localhost") (PyVal.vint 33013) PyVal.vnone
      PyVal.vnone (PyVal.vfloat 1) = .ok sampleState ∧
    1 ≤ 2 ∧
    Locksmith.tntTrace 2 sampleState =
      (List.replicate 2 sampleConn,
       { sampleState with tnt := some sampleConn }, 1) :=
  ⟨rfl, by decide,
   tnt_constructed_at_most_once (PyVal.vstr "localhost") (PyVal.vint 33013)
     PyVal.vnone PyVal.vnone (PyVal.vfloat 1) sampleState rfl 2 (by decide)⟩

/-- C5 failing input: the constructor's validation branches execute
`raise Lock.BadConfigException(...)`, but `Lock` has no attribute
`BadConfigException` (it is defined on `Locksmith`), so an empty host, a falsy
port and a non-integer port each raise `AttributeError` instead of the
configuration error; construction still never succeeds. -/
theorem init_invalid_config_raises_attribute_error :
    Locksmith.init (PyVal.vstr "") (PyVal.vint 33013) PyVal.vnone PyVal.vnone
        (PyVal.vfloat 1)
      = .error (PyExc.attributeError
          "type object Lock has no attribute BadConfigException") ∧
    Locksmith.init (PyVal.vstr "localhost") (PyVal.vint 0) PyVal.vnone
        PyVal.vnone (PyVal.vfloat 1)
      = .error (PyExc.attributeError
          "type object Lock has no attribute BadConfigException") ∧
    Locksmith.init (PyVal.vstr "localhost") (PyVal.vstr "33013") PyVal.vnone
        PyVal.vnone (PyVal.vfloat 1)
      = .error (PyExc.attributeError
          "type object Lock has no attribute BadConfigException") :=
  ⟨rfl, rfl, rfl⟩

/-- C6: a substituted connection class without a `call` method, or a
substituted lock object without `__enter__`/`__exit__`, is rejected with a
`TypeError` and the coordinator state — including the previously configured
substitute — is left exactly as it was. -/
theorem substitute_missing_capability_rejected
    (s : Locksmith.State) (ca la : List String) (i j : Nat)
    (hc : "call" ∉ ca)
    (hl : "__enter__" ∉ la ∨ "__exit__" ∉ la) :
    Locksmith.set_tarantool_connection s (some (ConnCls.custom ca i)) =
      (s, some (PyExc.typeError
        "Connection class must have connect and call methods or be None")) ∧
    Locksmith.set_tarantool_lock s (some (LockInst.custom la j)) =
      (s, some (PyExc.typeError
        "Lock class must have `__enter__` and `__exit__` methods or be None")) := by
  constructor
  · simp [Locksmith.set_tarantool_connection, ConnCls.dirHas, hc]
  · rcases hl with h | h <;>
      simp [Locksmith.set_tarantool_lock, LockInst.dirHas, h]

/-- Witness for C6 with capability-free substitutes. -/
theorem substitute_missing_capability_rejected_witness :
    "call" ∉ ([] : List String) ∧
    ("__enter__" ∉ ([] : List String) ∨ "__exit__" ∉ ([] : List String)) ∧
    (Locksmith.set_tarantool_connection sampleState
        (some (ConnCls.custom [] 1)) =
      (sampleState, some (PyExc.typeError
        "Connection class must have connect and call methods or be None")) ∧
     Locksmith.set_tarantool_lock sampleState (some (LockInst.custom [] 1)) =
      (sampleState, some (PyExc.typeError
        "Lock class must have `__enter__` and `__exit__` methods or be None"))) :=
  ⟨by decide, Or.inl (by decide),
   substitute_missing_capability_rejected sampleState [] [] 1 1 (by decide)
     (Or.inl (by decide))⟩

/-- C7: assigning `None` to either substitution point resets it to the
built-in default (`tarantool.Connection` respectively `threading.Lock`)
without raising, and reading either substitution point while it is unset
yields the built-in default. -/
theorem substitution_defaults (s : Locksmith.State) :
    (Locksmith.set_tarantool_connection s none).1.conclass
      = some ConnCls.tarantoolConnection ∧
    (Locksmith.set_tarantool_connection s none).2 = none ∧
    (Locksmith.set_tarantool_lock s none).1.lockinst
      = some LockInst.threadingLock ∧
    (Locksmith.set_tarantool_lock s none).2 = none ∧
    (Locksmith.tarantool_connection { s with conclass := none }).1
      = ConnCls.tarantoolConnection ∧
    (Locksmith.tarantool_lock { s with lockinst := none }).1
      = LockInst.threadingLock :=
  ⟨rfl, rfl, rfl, rfl, rfl, rfl⟩

/-- C10: any accepted assignment to the connection substitution point (a
capable class or `None`) clears the cached channel, and the next `tnt` access
constructs a connection from the newly configured class; an assignment to the
lock substitution point leaves the cached channel in place and `tnt` keeps
returning it. -/
theorem substitution_tnt_frame
    (s : Locksmith.State) (c : ConnCls) (l : LockInst) (ch : Conn)
    (hc : (c.dirHas "call" && c.dirHas "__init__") = true)
    (hl : (l.dirHas "__enter__" && l.dirHas "__exit__") = true)
    (hch : s.tnt = some ch) :
    (Locksmith.set_tarantool_connection s (some c)).1.tnt = none ∧
    (Locksmith.tnt_get
        (Locksmith.set_tarantool_connection s (some c)).1).1.cls = c ∧
    (Locksmith.set_tarantool_connection s none).1.tnt = none ∧
    (Locksmith.tnt_get
        (Locksmith.set_tarantool_connection s none).1).1.cls
      = ConnCls.tarantoolConnection ∧
    (Locksmith.set_tarantool_lock s (some l)).1.tnt = some ch ∧
    (Locksmith.tnt_get (Locksmith.set_tarantool_lock s (some l)).1).1 = ch ∧
    (Locksmith.set_tarantool_lock s none).1.tnt = some ch ∧
    (Locksmith.tnt_get (Locksmith.set_tarantool_lock s none).1).1 = ch := by
  rcases hli : s.lockinst with _ | l0 <;>
    simp [Locksmith.set_tarantool_connection, Locksmith.set_tarantool_lock,
          Locksmith.tnt_get, Locksmith.tarantool_lock,
          Locksmith.tarantool_connection, hc, hl, hch, hli]

/-- Witness for C10 with a cached channel, a capable substitute class and a
capable substitute lock. -/
theorem substitution_tnt_frame_witness :
    ((ConnCls.custom ["call", "__init__"] 1).dirHas "call"
       && (ConnCls.custom ["call", "__init__"] 1).dirHas "__init__") = true ∧
    ((LockInst.custom ["__enter__", "__exit__"] 1).dirHas "__enter__"
       && (LockInst.custom ["__enter__", "__exit__"] 1).dirHas "__exit__")
      = true ∧
    ({ sampleState with tnt := some sampleConn } : Locksmith.State).tnt
      = some sampleConn ∧
    ((Locksmith.tnt_get
        (Locksmith.set_tarantool_connection
          { sampleState with tnt := some sampleConn }
          (some (ConnCls.custom ["call", "__init__"] 1))).1).1.cls
       = ConnCls.custom ["call", "__init__"] 1 ∧
     (Locksmith.tnt_get
        (Locksmith.set_tarantool_lock
          { sampleState with tnt := some sampleConn }
          (some (LockInst.custom ["__enter__", "__exit__"] 1))).1).1
       = sampleConn) :=
  ⟨by decide, by decide, rfl,
   (substitution_tnt_frame { sampleState with tnt := some sampleConn }
      (ConnCls.custom ["call", "__init__"] 1)
      (LockInst.custom ["__enter__", "__exit__"] 1) sampleConn
      (by decide) (by decide) rfl).2.1,
   (substitution_tnt_frame { sampleState with tnt := some sampleConn }
      (ConnCls.custom ["call", "__init__"] 1)
      (LockInst.custom ["__enter__", "__exit__"] 1) sampleConn
      (by decide) (by decide) rfl).2.2.2.2.2.1⟩
